import Mathlib

/-!
Verification of the topic dummy-clk platform driver (src/dummy-clk.c).

The driver keeps parallel arrays of clock handles, target frequencies and
enabled flags (struct dummy_clk_data).  `dummy_clk_probe` (attach) reads the
clock count and frequency array from the device tree, resolves every clock
handle, then enables each clock; `dummy_clk_remove` (detach) disables every
clock.  `dummy_clk_enable` / `dummy_clk_disable` are the per-item operations.

External collaborators (device tree, clock provider, allocator) are modelled
by an `Env` of oracles; every call the driver issues to the clock provider or
device-tree layer is recorded in a trace of `ProviderCall`s so that claims
about which calls happen (and in which order) can be stated.
-/

set_option linter.unusedVariables false

namespace DummyClk

/-- Error number ENOMEM (out of memory); the driver returns its negation. -/
def ENOMEM : Int := 12

/-- Error number EINVAL (invalid argument); the driver returns its negation. -/
def EINVAL : Int := 22

/-- An opaque clock handle, as handed out by the external clock provider
(a `struct clk *` in the source). -/
structure Clk where
  id : Nat
deriving DecidableEq, Repr

/-- One observable call issued by the driver to the external device-tree /
clock-provider layer, recorded in issue order. -/
inductive ProviderCall where
  | resolve (i : Nat)
  | setRate (c : Clk) (hz : Nat)
  | prepareEnable (c : Clk)
  | getRate (c : Clk)
  | disableUnprepare (c : Clk)
deriving DecidableEq, Repr

/-- Is this trace entry a clock-handle resolution (`of_clk_get`)? -/
def ProviderCall.isResolve : ProviderCall → Bool
  | .resolve _ => true
  | _ => false

/-- Is this trace entry a rate query (`clk_get_rate`)? -/
def ProviderCall.isGetRate : ProviderCall → Bool
  | .getRate _ => true
  | _ => false

/-- The environment the driver runs in: allocator outcomes, device-tree
contents and the external clock provider responses.

* `allocOk` — outcome of the `devm_kzalloc` of the data struct;
* `allocArraysOk` — outcome of the three per-array allocations;
* `nClocks` — `of_clk_get_parent_count` of the device node;
* `resolve i` — `of_clk_get(node, i)`, `none` modelling a NULL return;
* `freqProp` — the `clock-frequencies` device-tree property, if present;
* `setRateRes c hz` — return value of `clk_set_rate(c, hz)`;
* `prepareRes c` — return value of `clk_prepare_enable(c)`. -/
structure Env where
  allocOk : Bool
  allocArraysOk : Bool
  nClocks : Nat
  resolve : Nat → Option Clk
  freqProp : Option (List Nat)
  setRateRes : Clk → Nat → Int
  prepareRes : Clk → Int

/-- `struct dummy_clk_data` from the source: parallel arrays of clock
handles, target frequencies and enabled flags, plus the clock count
(`pdev` back-pointer omitted: it is only used for logging). -/
structure DummyClkData where
  clocks : List Clk
  clk_frequencies : List Nat
  clk_enabled : List Bool
  n_clocks : Nat
deriving DecidableEq, Repr

/-- `dummy_clk_enable` (src/dummy-clk.c lines 42-73): if the item is already
enabled return 0 at once; otherwise call `clk_set_rate` (propagating a
negative error), then `clk_prepare_enable` (propagating a negative error),
and on success mark the item enabled.  Returns the C return value, the
updated state, and the trace of provider calls issued. -/
def dummy_clk_enable (env : Env) (data : DummyClkData) (clk_nr : Nat) :
    Int × DummyClkData × List ProviderCall :=
  if data.clk_enabled.getD clk_nr false then
    (0, data, [])
  else
    let c := data.clocks.getD clk_nr ⟨0⟩
    let hz := data.clk_frequencies.getD clk_nr 0
    let err := env.setRateRes c hz
    if err < 0 then
      (err, data, [.setRate c hz])
    else
      let err2 := env.prepareRes c
      if err2 < 0 then
        (err2, data, [.setRate c hz, .prepareEnable c])
      else
        (0, { data with clk_enabled := data.clk_enabled.set clk_nr true },
          [.setRate c hz, .prepareEnable c])

/-- `dummy_clk_disable` (src/dummy-clk.c lines 75-85): if the item is not
enabled return at once; otherwise call `clk_disable_unprepare` and mark the
item disabled.  Returns the updated state and the provider calls issued. -/
def dummy_clk_disable (env : Env) (data : DummyClkData) (clk_nr : Nat) :
    DummyClkData × List ProviderCall :=
  if data.clk_enabled.getD clk_nr false then
    ({ data with clk_enabled := data.clk_enabled.set clk_nr false },
      [.disableUnprepare (data.clocks.getD clk_nr ⟨0⟩)])
  else
    (data, [])

/-- The clock-resolution loop of `dummy_clk_probe` (lines 126-133): resolve
each index in order via `of_clk_get`; on the first NULL handle abort with
failure.  Returns the resolved handles (or `none` on failure) and the trace
of resolution calls issued. -/
def resolveLoop (env : Env) : List Nat → Option (List Clk) × List ProviderCall
  | [] => (some [], [])
  | i :: rest =>
    match env.resolve i with
    | none => (none, [.resolve i])
    | some c =>
      match resolveLoop env rest with
      | (none, tr) => (none, .resolve i :: tr)
      | (some cs, tr) => (some (c :: cs), .resolve i :: tr)

/-- Modelled from the spec: the external device-tree array read
`of_property_read_u32_array(node, "clock-frequencies", buf, n)` succeeds
exactly when the property is present as an array of `n` unsigned integers
(spec section 6: "an array of n unsigned 32-bit integers, positionally
aligned with the clock reference list"). -/
def of_property_read_u32_array (env : Env) (n : Nat) : Option (List Nat) :=
  match env.freqProp with
  | none => none
  | some l => if l.length = n then some l else none

/-- The enable loop of `dummy_clk_probe` (lines 143-148): call
`dummy_clk_enable` on each index in order; abort on the first nonzero
return.  Returns the first nonzero return value (or 0), the final state and
the concatenated trace. -/
def enableLoop (env : Env) (data : DummyClkData) :
    List Nat → Int × DummyClkData × List ProviderCall
  | [] => (0, data, [])
  | i :: rest =>
    match dummy_clk_enable env data i with
    | (r, d2, t) =>
      if r = 0 then
        match enableLoop env d2 rest with
        | (r2, d3, t2) => (r2, d3, t ++ t2)
      else
        (r, d2, t)

/-- The disable loop of `dummy_clk_remove` (lines 163-166): call
`dummy_clk_disable` on each index in order.  Returns the final state and
the concatenated trace. -/
def disableLoop (env : Env) (data : DummyClkData) :
    List Nat → DummyClkData × List ProviderCall
  | [] => (data, [])
  | i :: rest =>
    match dummy_clk_disable env data i with
    | (d2, t) =>
      match disableLoop env d2 rest with
      | (d3, t2) => (d3, t ++ t2)

/-- `dummy_clk_probe` (src/dummy-clk.c lines 87-154): allocate the data
struct (ENOMEM on failure), read the clock count (ENOMEM when zero),
allocate the arrays (ENOMEM on failure), resolve every clock handle in
order (EINVAL on a NULL handle), read the `clock-frequencies` array
(EINVAL on failure), then enable every clock in order (EINVAL on the first
failure).  Returns the C return value, the resulting clock set on success
(`none` on failure: the devm allocations are released and the device is not
bound), and the trace of external calls issued. -/
def dummy_clk_probe (env : Env) :
    Int × Option DummyClkData × List ProviderCall :=
  if env.allocOk = false then
    (-ENOMEM, none, [])
  else if env.nClocks = 0 then
    (-ENOMEM, none, [])
  else if env.allocArraysOk = false then
    (-ENOMEM, none, [])
  else
    match resolveLoop env (List.range env.nClocks) with
    | (none, tr) => (-EINVAL, none, tr)
    | (some clks, tr) =>
      match of_property_read_u32_array env env.nClocks with
      | none => (-EINVAL, none, tr)
      | some freqs =>
        let data : DummyClkData :=
          { clocks := clks
            clk_frequencies := freqs
            clk_enabled := List.replicate env.nClocks false
            n_clocks := env.nClocks }
        match enableLoop env data (List.range env.nClocks) with
        | (r, d, tr2) =>
          if r = 0 then (0, some d, tr ++ tr2)
          else (-EINVAL, none, tr ++ tr2)

/-- `dummy_clk_remove` (src/dummy-clk.c lines 158-168): disable every clock
in ascending index order and return 0. -/
def dummy_clk_remove (env : Env) (data : DummyClkData) :
    Int × DummyClkData × List ProviderCall :=
  match disableLoop env data (List.range data.n_clocks) with
  | (d, tr) => (0, d, tr)

/-- A concrete environment in which everything succeeds: three clocks with
the frequencies of the spec's section 8 scenario. -/
def envOk3 : Env where
  allocOk := true
  allocArraysOk := true
  nClocks := 3
  resolve := fun i => some ⟨i + 100⟩
  freqProp := some [1000000, 2000000, 1500000]
  setRateRes := fun _ _ => 0
  prepareRes := fun _ => 0

/-- A concrete environment declaring zero clocks. -/
def envZero : Env where
  allocOk := true
  allocArraysOk := true
  nClocks := 0
  resolve := fun _ => none
  freqProp := none
  setRateRes := fun _ _ => 0
  prepareRes := fun _ => 0

/-- A concrete environment whose data-struct allocation fails. -/
def envAllocFail : Env where
  allocOk := false
  allocArraysOk := true
  nClocks := 3
  resolve := fun i => some ⟨i⟩
  freqProp := some [1, 2, 3]
  setRateRes := fun _ _ => 0
  prepareRes := fun _ => 0

/-- A concrete one-item clock set whose single item is not yet enabled. -/
def dataOne : DummyClkData where
  clocks := [⟨7⟩]
  clk_frequencies := [1000]
  clk_enabled := [false]
  n_clocks := 1

/-- A concrete one-item clock set whose single item is already enabled. -/
def dataOneEnabled : DummyClkData where
  clocks := [⟨7⟩]
  clk_frequencies := [1000]
  clk_enabled := [true]
  n_clocks := 1

/-- A concrete environment whose provider rejects every rate-set request
with -5. -/
def envRateFail : Env where
  allocOk := true
  allocArraysOk := true
  nClocks := 1
  resolve := fun i => some ⟨i⟩
  freqProp := some [1000]
  setRateRes := fun _ _ => -5
  prepareRes := fun _ => 0

/-- A concrete environment whose provider accepts rate-set requests but
rejects every prepare+enable request with -6. -/
def envPrepFail : Env where
  allocOk := true
  allocArraysOk := true
  nClocks := 1
  resolve := fun i => some ⟨i⟩
  freqProp := some [1000]
  setRateRes := fun _ _ => 0
  prepareRes := fun _ => -6

/-- A concrete three-item clock set in a mixed enabled/disabled state. -/
def dataMixed : DummyClkData where
  clocks := [⟨1⟩, ⟨2⟩, ⟨3⟩]
  clk_frequencies := [10, 20, 30]
  clk_enabled := [true, false, true]
  n_clocks := 3

/-- A concrete environment in which resolving clock 2 yields no handle. -/
def envResFail2 : Env where
  allocOk := true
  allocArraysOk := true
  nClocks := 3
  resolve := fun i => if i = 2 then none else some ⟨i⟩
  freqProp := some [1, 2, 3]
  setRateRes := fun _ _ => 0
  prepareRes := fun _ => 0

/-- A concrete environment whose frequency array is shorter than the
declared clock count. -/
def envFreqShort : Env where
  allocOk := true
  allocArraysOk := true
  nClocks := 3
  resolve := fun i => some ⟨i⟩
  freqProp := some [1, 2]
  setRateRes := fun _ _ => 0
  prepareRes := fun _ => 0

/- ------------------------------------------------------------------ -/
/- Theorems -/
/- ------------------------------------------------------------------ -/

/-- Helper: enabling an already-enabled item is the immediate no-op. -/
theorem dummy_clk_enable_already (env : Env) (data : DummyClkData) (i : Nat)
    (hen : data.clk_enabled.getD i false = true) :
    dummy_clk_enable env data i = (0, data, []) := by
  simp only [List.getD_eq_getElem?_getD] at hen
  simp [dummy_clk_enable, hen]

/-- Helper: enabling a disabled item when both provider calls succeed
returns 0, sets the flag, and issues the two calls. -/
theorem dummy_clk_enable_ok (env : Env) (data : DummyClkData) (i : Nat)
    (hen : data.clk_enabled.getD i false = false)
    (h1 : 0 ≤ env.setRateRes (data.clocks.getD i ⟨0⟩)
      (data.clk_frequencies.getD i 0))
    (h2 : 0 ≤ env.prepareRes (data.clocks.getD i ⟨0⟩)) :
    dummy_clk_enable env data i =
      (0, { data with clk_enabled := data.clk_enabled.set i true },
        [.setRate (data.clocks.getD i ⟨0⟩) (data.clk_frequencies.getD i 0),
          .prepareEnable (data.clocks.getD i ⟨0⟩)]) := by
  have h1n := not_lt.mpr h1
  have h2n := not_lt.mpr h2
  simp only [List.getD_eq_getElem?_getD] at hen h1n h2n
  simp [dummy_clk_enable, hen, h1n, h2n]

/-- Helper: the trace of the resolution loop consists of resolution calls
only — no rate-set, prepare or disable call is ever issued by it. -/
theorem resolveLoop_trace_all_resolve (env : Env) (L : List Nat) :
    ((resolveLoop env L).2).all ProviderCall.isResolve = true := by
  induction L with
  | nil => rfl
  | cons i rest ih =>
    simp only [resolveLoop]
    rcases hri : env.resolve i with _ | c
    · simp [ProviderCall.isResolve]
    · rcases hrl : resolveLoop env rest with ⟨o, tr⟩
      rcases o with _ | cs <;>
        simpa [ProviderCall.isResolve, hrl] using ih

/-- Helper: if some index in the list resolves to no handle, the
resolution loop fails. -/
theorem resolveLoop_none_of_mem (env : Env) (L : List Nat) (i : Nat)
    (hmem : i ∈ L) (hres : env.resolve i = none) :
    (resolveLoop env L).1 = none := by
  induction L with
  | nil => simp at hmem
  | cons j rest ih =>
    simp only [resolveLoop]
    rcases hrj : env.resolve j with _ | c
    · rfl
    · rcases List.mem_cons.mp hmem with hj | hj
      · subst hj
        rw [hres] at hrj
        exact absurd hrj (by simp)
      · rcases hrl : resolveLoop env rest with ⟨o, tr⟩
        have := ih hj
        rw [hrl] at this
        simp only at this
        subst this
        rfl

/-- Helper: if every index in the list resolves, the resolution loop
succeeds. -/
theorem resolveLoop_all_some (env : Env) (L : List Nat)
    (hres : ∀ i ∈ L, env.resolve i ≠ none) :
    ∃ cs, (resolveLoop env L).1 = some cs := by
  induction L with
  | nil => exact ⟨[], rfl⟩
  | cons j rest ih =>
    simp only [resolveLoop]
    rcases hrj : env.resolve j with _ | c
    · exact absurd hrj (hres j (List.mem_cons_self j rest))
    · obtain ⟨cs, hcs⟩ := ih fun i hi => hres i (List.mem_cons_of_mem j hi)
      rcases hrl : resolveLoop env rest with ⟨o, tr⟩
      rw [hrl] at hcs
      simp only at hcs
      subst hcs
      exact ⟨c :: cs, rfl⟩

/-- C4: with zero declared clocks, attach fails with -ENOMEM (the code's
encoding of NoClocksDeclared), produces no clock set, and issues no
external call at all (no handle acquired, no rate set, no clock enabled). -/
theorem probe_zero_clocks (env : Env) (halloc : env.allocOk = true)
    (hn : env.nClocks = 0) :
    dummy_clk_probe env = (-ENOMEM, none, []) := by
  simp [dummy_clk_probe, halloc, hn]

/-- Witness for `probe_zero_clocks` at the concrete environment `envZero`. -/
theorem probe_zero_clocks_witness :
    envZero.allocOk = true ∧ envZero.nClocks = 0 ∧
      dummy_clk_probe envZero = (-ENOMEM, none, []) :=
  ⟨rfl, rfl, probe_zero_clocks envZero rfl rfl⟩

/-- C9: attach with zero declared clocks returns the very same error code as
attach under a failed memory allocation, namely -ENOMEM = -12, so the host
framework cannot tell the two apart from the return value. -/
theorem probe_zero_clocks_enomem_indistinguishable
    (env1 env2 : Env) (halloc : env1.allocOk = true)
    (hn : env1.nClocks = 0) (hfail : env2.allocOk = false) :
    (dummy_clk_probe env1).1 = (dummy_clk_probe env2).1 ∧
      (dummy_clk_probe env1).1 = -12 := by
  constructor
  · simp [dummy_clk_probe, halloc, hn, hfail]
  · simp [dummy_clk_probe, halloc, hn, ENOMEM]

/-- Witness for `probe_zero_clocks_enomem_indistinguishable` at the concrete
environments `envZero` and `envAllocFail`. -/
theorem probe_zero_clocks_enomem_indistinguishable_witness :
    (dummy_clk_probe envZero).1 = (dummy_clk_probe envAllocFail).1 ∧
      (dummy_clk_probe envZero).1 = -12 :=
  probe_zero_clocks_enomem_indistinguishable envZero envAllocFail rfl rfl rfl

/-- C3 counterexample: a concrete successful enable of a not-yet-enabled
item returns 0 and sets the flag, yet its provider-call trace contains no
rate query (`clk_get_rate`) at all — refuting the claim that the operation
queries the provider for the actual resulting rate before returning. -/
theorem enable_no_rate_query_counterexample :
    (dummy_clk_enable envOk3 dataOne 0).1 = 0 ∧
      (dummy_clk_enable envOk3 dataOne 0).2.1.clk_enabled = [true] ∧
      ((dummy_clk_enable envOk3 dataOne 0).2.2.all
        fun pc => ! pc.isGetRate) = true := by
  decide

/-- C3 (amended): a successful enable of a not-yet-enabled item returns 0,
sets the enabled flag, and issues exactly the rate-set call followed by the
prepare+enable call — in particular it never queries the provider for the
actual resulting rate. -/
theorem enable_success_spec (env : Env) (data : DummyClkData) (i : Nat)
    (hdis : data.clk_enabled.getD i false = false)
    (hsr : 0 ≤ env.setRateRes (data.clocks.getD i ⟨0⟩)
      (data.clk_frequencies.getD i 0))
    (hpr : 0 ≤ env.prepareRes (data.clocks.getD i ⟨0⟩)) :
    dummy_clk_enable env data i =
      (0, { data with clk_enabled := data.clk_enabled.set i true },
        [.setRate (data.clocks.getD i ⟨0⟩) (data.clk_frequencies.getD i 0),
          .prepareEnable (data.clocks.getD i ⟨0⟩)]) ∧
      ((dummy_clk_enable env data i).2.2.all
        fun pc => ! pc.isGetRate) = true := by
  have h1 : ¬ env.setRateRes (data.clocks.getD i ⟨0⟩)
      (data.clk_frequencies.getD i 0) < 0 := not_lt.mpr hsr
  have h2 : ¬ env.prepareRes (data.clocks.getD i ⟨0⟩) < 0 := not_lt.mpr hpr
  simp only [List.getD_eq_getElem?_getD] at hdis h1 h2
  constructor
  · simp [dummy_clk_enable, hdis, h1, h2]
  · simp [dummy_clk_enable, hdis, h1, h2, ProviderCall.isGetRate]

/-- Witness for `enable_success_spec` at the concrete environment `envOk3`
and clock set `dataOne`. -/
theorem enable_success_spec_witness :
    dummy_clk_enable envOk3 dataOne 0 =
      (0, { dataOne with clk_enabled := [false].set 0 true },
        [.setRate ⟨7⟩ 1000, .prepareEnable ⟨7⟩]) ∧
      ((dummy_clk_enable envOk3 dataOne 0).2.2.all
        fun pc => ! pc.isGetRate) = true :=
  enable_success_spec envOk3 dataOne 0 (by decide) (by decide) (by decide)

/-- C7: enable and disable are idempotent.  Enabling an already-enabled
item returns 0 at once with no provider call and no state change; disabling
an already-disabled item makes no provider call and no state change; and
after any successful enable, a second enable returns 0 with no further
provider call and no state change — so calling enable twice yields the same
state and the same provider-call trace (in particular the same single
rate-set call) as calling it once. -/
theorem enable_disable_idempotent (env : Env) (data : DummyClkData) (i : Nat)
    (hi : i < data.clk_enabled.length) :
    (data.clk_enabled.getD i false = true →
      dummy_clk_enable env data i = (0, data, [])) ∧
    (data.clk_enabled.getD i false = false →
      dummy_clk_disable env data i = (data, [])) ∧
    ((dummy_clk_enable env data i).1 = 0 →
      dummy_clk_enable env (dummy_clk_enable env data i).2.1 i =
        (0, (dummy_clk_enable env data i).2.1, [])) := by
  refine ⟨fun hen => ?_, fun hdis => ?_, fun hok => ?_⟩
  · simp only [List.getD_eq_getElem?_getD] at hen
    simp [dummy_clk_enable, hen]
  · simp only [List.getD_eq_getElem?_getD] at hdis
    simp [dummy_clk_disable, hdis]
  · by_cases hen : data.clk_enabled.getD i false = true
    · simp only [List.getD_eq_getElem?_getD] at hen
      simp [dummy_clk_enable, hen]
    · simp only [Bool.not_eq_true] at hen
      by_cases h1 : env.setRateRes (data.clocks.getD i ⟨0⟩)
          (data.clk_frequencies.getD i 0) < 0
      · exfalso
        simp only [List.getD_eq_getElem?_getD] at hen h1
        simp [dummy_clk_enable, hen, h1] at hok
        omega
      · by_cases h2 : env.prepareRes (data.clocks.getD i ⟨0⟩) < 0
        · exfalso
          simp only [List.getD_eq_getElem?_getD] at hen h1 h2
          simp [dummy_clk_enable, hen, h1, h2] at hok
          omega
        · have hres : (dummy_clk_enable env data i).2.1 =
              { data with clk_enabled := data.clk_enabled.set i true } := by
            simp only [List.getD_eq_getElem?_getD] at hen h1 h2
            simp [dummy_clk_enable, hen, h1, h2]
          rw [hres]
          have hset : ((data.clk_enabled.set i true))[i]?.getD false = true := by
            simp [List.getElem?_set_self hi]
          simp [dummy_clk_enable, hset]

/-- Witness for `enable_disable_idempotent`: at `envOk3` and the concrete
one-item sets, an enabled item's enable and a disabled item's disable are
no-ops, and the second of two enables is a no-op. -/
theorem enable_disable_idempotent_witness :
    (dummy_clk_enable envOk3 dataOneEnabled 0 = (0, dataOneEnabled, []) ∧
      dummy_clk_disable envOk3 dataOne 0 = (dataOne, [])) ∧
    dummy_clk_enable envOk3 (dummy_clk_enable envOk3 dataOne 0).2.1 0 =
      (0, (dummy_clk_enable envOk3 dataOne 0).2.1, []) :=
  ⟨⟨(enable_disable_idempotent envOk3 dataOneEnabled 0 (by decide)).1 (by decide),
    (enable_disable_idempotent envOk3 dataOne 0 (by decide)).2.1 (by decide)⟩,
    (enable_disable_idempotent envOk3 dataOne 0 (by decide)).2.2 (by decide)⟩

/-- C8: enabling a not-yet-enabled item when the provider rejects the
rate-set request returns that (negative) error, leaves the state — in
particular the enabled flag — unchanged, and has issued only the rate-set
call; when the rate-set succeeds but prepare+enable fails, it returns that
(negative) error, leaves the state unchanged, and has issued exactly the
rate-set call followed by the failed prepare+enable call. -/
theorem enable_failure_paths (env : Env) (data : DummyClkData) (i : Nat)
    (hdis : data.clk_enabled.getD i false = false) :
    (env.setRateRes (data.clocks.getD i ⟨0⟩)
        (data.clk_frequencies.getD i 0) < 0 →
      dummy_clk_enable env data i =
        (env.setRateRes (data.clocks.getD i ⟨0⟩)
            (data.clk_frequencies.getD i 0), data,
          [.setRate (data.clocks.getD i ⟨0⟩)
            (data.clk_frequencies.getD i 0)])) ∧
    (0 ≤ env.setRateRes (data.clocks.getD i ⟨0⟩)
        (data.clk_frequencies.getD i 0) →
      env.prepareRes (data.clocks.getD i ⟨0⟩) < 0 →
      dummy_clk_enable env data i =
        (env.prepareRes (data.clocks.getD i ⟨0⟩), data,
          [.setRate (data.clocks.getD i ⟨0⟩)
            (data.clk_frequencies.getD i 0),
            .prepareEnable (data.clocks.getD i ⟨0⟩)])) := by
  constructor
  · intro h1
    simp only [List.getD_eq_getElem?_getD] at hdis h1
    simp [dummy_clk_enable, hdis, h1]
  · intro h1 h2
    have h1n : ¬ env.setRateRes (data.clocks.getD i ⟨0⟩)
        (data.clk_frequencies.getD i 0) < 0 := not_lt.mpr h1
    simp only [List.getD_eq_getElem?_getD] at hdis h1n h2
    simp [dummy_clk_enable, hdis, h1n, h2]

/-- Witness for `enable_failure_paths` at the concrete environments
`envRateFail` (rate-set rejected with -5) and `envPrepFail` (prepare
rejected with -6), each on the disabled one-item set `dataOne`. -/
theorem enable_failure_paths_witness :
    dummy_clk_enable envRateFail dataOne 0 =
      (-5, dataOne, [.setRate ⟨7⟩ 1000]) ∧
    dummy_clk_enable envPrepFail dataOne 0 =
      (-6, dataOne, [.setRate ⟨7⟩ 1000, .prepareEnable ⟨7⟩]) :=
  ⟨(enable_failure_paths envRateFail dataOne 0 (by decide)).1 (by decide),
    (enable_failure_paths envPrepFail dataOne 0 (by decide)).2
      (by decide) (by decide)⟩

/-- C10: the enabled flag tracks provider success.  If enable leaves item
i's flag true then either it already was true, or the call returned 0 after
a succeeding rate-set call and a succeeding prepare+enable call (exactly
those two calls, in that order); after disable the flag is always false;
and disabling an enabled item issues exactly the disable+unprepare call and
then clears the flag. -/
theorem enabled_flag_invariant (env : Env) (data : DummyClkData) (i : Nat) :
    ((dummy_clk_enable env data i).2.1.clk_enabled.getD i false = true →
      data.clk_enabled.getD i false = true ∨
        ((dummy_clk_enable env data i).1 = 0 ∧
          0 ≤ env.setRateRes (data.clocks.getD i ⟨0⟩)
            (data.clk_frequencies.getD i 0) ∧
          0 ≤ env.prepareRes (data.clocks.getD i ⟨0⟩) ∧
          (dummy_clk_enable env data i).2.2 =
            [.setRate (data.clocks.getD i ⟨0⟩)
              (data.clk_frequencies.getD i 0),
              .prepareEnable (data.clocks.getD i ⟨0⟩)])) ∧
    ((dummy_clk_disable env data i).1.clk_enabled.getD i false = false) ∧
    (data.clk_enabled.getD i false = true →
      dummy_clk_disable env data i =
        ({ data with clk_enabled := data.clk_enabled.set i false },
          [.disableUnprepare (data.clocks.getD i ⟨0⟩)])) := by
  refine ⟨fun htrue => ?_, ?_, fun hen => ?_⟩
  · by_cases hen : data.clk_enabled.getD i false = true
    · exact Or.inl hen
    · simp only [Bool.not_eq_true] at hen
      right
      by_cases h1 : env.setRateRes (data.clocks.getD i ⟨0⟩)
          (data.clk_frequencies.getD i 0) < 0
      · exfalso
        simp only [List.getD_eq_getElem?_getD] at hen h1 htrue
        simp [dummy_clk_enable, hen, h1] at htrue
      · by_cases h2 : env.prepareRes (data.clocks.getD i ⟨0⟩) < 0
        · exfalso
          simp only [List.getD_eq_getElem?_getD] at hen h1 h2 htrue
          simp [dummy_clk_enable, hen, h1, h2] at htrue
        · refine ⟨?_, not_lt.mp h1, not_lt.mp h2, ?_⟩ <;>
          · simp only [List.getD_eq_getElem?_getD] at hen h1 h2
            simp [dummy_clk_enable, hen, h1, h2]
  · by_cases hen : data.clk_enabled.getD i false = true
    · simp only [List.getD_eq_getElem?_getD] at hen
      by_cases hi : i < data.clk_enabled.length
      · simp [dummy_clk_disable, hen, List.getElem?_set_self hi]
      · simp [dummy_clk_disable, hen,
          List.set_eq_of_length_le (not_lt.mp hi),
          List.getElem?_eq_none (not_lt.mp hi)]
    · simp only [Bool.not_eq_true] at hen
      simp only [List.getD_eq_getElem?_getD] at hen ⊢
      simp [dummy_clk_disable, hen]
  · simp only [List.getD_eq_getElem?_getD] at hen
    simp [dummy_clk_disable, hen]

/-- Witness for `enabled_flag_invariant`: at `envOk3`, enabling the
disabled item of `dataOne` sets its flag via two succeeding provider calls,
and disabling the enabled item of `dataOneEnabled` clears its flag after
the disable+unprepare call. -/
theorem enabled_flag_invariant_witness :
    (dataOne.clk_enabled.getD 0 false = true ∨
      ((dummy_clk_enable envOk3 dataOne 0).1 = 0 ∧
        0 ≤ envOk3.setRateRes ⟨7⟩ 1000 ∧
        0 ≤ envOk3.prepareRes ⟨7⟩ ∧
        (dummy_clk_enable envOk3 dataOne 0).2.2 =
          [.setRate ⟨7⟩ 1000, .prepareEnable ⟨7⟩])) ∧
    dummy_clk_disable envOk3 dataOneEnabled 0 =
      ({ dataOneEnabled with clk_enabled := [true].set 0 false },
        [.disableUnprepare ⟨7⟩]) :=
  ⟨(enabled_flag_invariant envOk3 dataOne 0).1 (by decide),
    (enabled_flag_invariant envOk3 dataOneEnabled 0).2.2 (by decide)⟩

/-- C6: if some clock index below the declared count resolves to no valid
handle, attach fails with -EINVAL (the code's encoding of
ClockResolutionFailed), produces no clock set, and its external-call trace
consists of resolution calls only — in particular no rate-set or
prepare+enable call was issued, so no item is enabled at the failure. -/
theorem probe_resolution_failure (env : Env) (i : Nat)
    (halloc : env.allocOk = true) (harr : env.allocArraysOk = true)
    (hn0 : env.nClocks ≠ 0) (hi : i < env.nClocks)
    (hres : env.resolve i = none) :
    dummy_clk_probe env =
      (-EINVAL, none, (resolveLoop env (List.range env.nClocks)).2) ∧
      ((dummy_clk_probe env).2.2.all ProviderCall.isResolve) = true := by
  have hnone : (resolveLoop env (List.range env.nClocks)).1 = none :=
    resolveLoop_none_of_mem env _ i (List.mem_range.mpr hi) hres
  have hmain : dummy_clk_probe env =
      (-EINVAL, none, (resolveLoop env (List.range env.nClocks)).2) := by
    rcases hrl : resolveLoop env (List.range env.nClocks) with ⟨o, tr⟩
    rw [hrl] at hnone
    simp only at hnone
    subst hnone
    simp [dummy_clk_probe, halloc, harr, hn0, hrl]
  refine ⟨hmain, ?_⟩
  rw [hmain]
  exact resolveLoop_trace_all_resolve env (List.range env.nClocks)

/-- Witness for `probe_resolution_failure` at the concrete environment
`envResFail2`, where clock 2 of 3 fails to resolve. -/
theorem probe_resolution_failure_witness :
    dummy_clk_probe envResFail2 =
      (-EINVAL, none, (resolveLoop envResFail2 (List.range 3)).2) ∧
      ((dummy_clk_probe envResFail2).2.2.all ProviderCall.isResolve) = true :=
  probe_resolution_failure envResFail2 2 rfl rfl (by decide) (by decide) rfl

/-- C5: with at least one declared clock, every handle resolving, but the
frequency array missing or of a length different from the clock count,
attach fails with -EINVAL (the code's encoding of FrequencyConfigMissing),
produces no clock set, and its external-call trace consists of resolution
calls only — the check precedes the enable loop, so no clock has been
enabled (no rate-set or prepare+enable call was issued). -/
theorem probe_freq_mismatch (env : Env)
    (halloc : env.allocOk = true) (harr : env.allocArraysOk = true)
    (hn0 : env.nClocks ≠ 0)
    (hres : ∀ i ∈ List.range env.nClocks, env.resolve i ≠ none)
    (hbad : ∀ l, env.freqProp = some l → l.length ≠ env.nClocks) :
    dummy_clk_probe env =
      (-EINVAL, none, (resolveLoop env (List.range env.nClocks)).2) ∧
      ((dummy_clk_probe env).2.2.all ProviderCall.isResolve) = true := by
  obtain ⟨cs, hcs⟩ := resolveLoop_all_some env (List.range env.nClocks) hres
  have hread : of_property_read_u32_array env env.nClocks = none := by
    rcases hfp : env.freqProp with _ | l
    · simp [of_property_read_u32_array, hfp]
    · simp [of_property_read_u32_array, hfp, hbad l hfp]
  have hmain : dummy_clk_probe env =
      (-EINVAL, none, (resolveLoop env (List.range env.nClocks)).2) := by
    rcases hrl : resolveLoop env (List.range env.nClocks) with ⟨o, tr⟩
    rw [hrl] at hcs
    simp only at hcs
    subst hcs
    simp [dummy_clk_probe, halloc, harr, hn0, hrl, hread]
  refine ⟨hmain, ?_⟩
  rw [hmain]
  exact resolveLoop_trace_all_resolve env (List.range env.nClocks)

/-- Witness for `probe_freq_mismatch` at the concrete environment
`envFreqShort`, whose frequency array has 2 entries for 3 clocks. -/
theorem probe_freq_mismatch_witness :
    dummy_clk_probe envFreqShort =
      (-EINVAL, none, (resolveLoop envFreqShort (List.range 3)).2) ∧
      ((dummy_clk_probe envFreqShort).2.2.all ProviderCall.isResolve) = true :=
  probe_freq_mismatch envFreqShort rfl rfl (by decide) (by decide) (by decide)

/-- Helper: when every provider call succeeds, the enable loop returns 0,
preserves the handles, frequencies, clock count and flag-array length, sets
the enabled flag of every in-range index it processes, and leaves every
other flag untouched. -/
theorem enableLoop_all_success (env : Env)
    (hsr : ∀ c hz, 0 ≤ env.setRateRes c hz)
    (hpr : ∀ c, 0 ≤ env.prepareRes c) (L : List Nat) :
    ∀ data : DummyClkData,
      (enableLoop env data L).1 = 0 ∧
      (enableLoop env data L).2.1.clocks = data.clocks ∧
      (enableLoop env data L).2.1.clk_frequencies = data.clk_frequencies ∧
      (enableLoop env data L).2.1.n_clocks = data.n_clocks ∧
      (enableLoop env data L).2.1.clk_enabled.length =
        data.clk_enabled.length ∧
      (∀ j ∈ L, j < data.clk_enabled.length →
        (enableLoop env data L).2.1.clk_enabled.getD j false = true) ∧
      (∀ j, j ∉ L →
        (enableLoop env data L).2.1.clk_enabled[j]? =
          data.clk_enabled[j]?) := by
  induction L with
  | nil =>
    intro data
    simp [enableLoop]
  | cons i rest ih =>
    intro data
    by_cases hen : data.clk_enabled.getD i false = true
    · have he := dummy_clk_enable_already env data i hen
      have hrest := ih data
      rcases helq : enableLoop env data rest with ⟨r2, d3, t2⟩
      rw [helq] at hrest
      obtain ⟨hr, hclocks, hfr, hnc, hlen, hmem, hout⟩ := hrest
      simp only at hr hclocks hfr hnc hlen hmem hout
      have hstep : enableLoop env data (i :: rest) = (r2, d3, [] ++ t2) := by
        simp [enableLoop, he, helq]
      rw [hstep]
      refine ⟨hr, hclocks, hfr, hnc, hlen, fun j hj hjlen => ?_,
        fun j hj => hout j (fun h => hj (List.mem_cons_of_mem i h))⟩
      rcases List.mem_cons.mp hj with hj | hj
      · subst hj
        by_cases hjr : j ∈ rest
        · exact hmem j hjr hjlen
        · have : d3.clk_enabled[j]? = data.clk_enabled[j]? := hout j hjr
          simp only [List.getD_eq_getElem?_getD] at hen ⊢
          rw [this]
          exact hen
      · exact hmem j hj hjlen
    · simp only [Bool.not_eq_true] at hen
      have he := dummy_clk_enable_ok env data i hen (hsr _ _) (hpr _)
      have hrest := ih { data with clk_enabled := data.clk_enabled.set i true }
      rcases helq : enableLoop env
          { data with clk_enabled := data.clk_enabled.set i true } rest with
        ⟨r2, d3, t2⟩
      rw [helq] at hrest
      obtain ⟨hr, hclocks, hfr, hnc, hlen, hmem, hout⟩ := hrest
      simp only at hr hclocks hfr hnc hlen hmem hout
      have hstep : enableLoop env data (i :: rest) =
          (r2, d3,
            [.setRate (data.clocks.getD i ⟨0⟩)
              (data.clk_frequencies.getD i 0),
              .prepareEnable (data.clocks.getD i ⟨0⟩)] ++ t2) := by
        simp [enableLoop, he, helq]
      rw [hstep]
      rw [List.length_set] at hlen
      refine ⟨hr, hclocks, hfr, hnc, hlen, fun j hj hjlen => ?_,
        fun j hj => ?_⟩
      · rcases List.mem_cons.mp hj with hj | hj
        · subst hj
          by_cases hjr : j ∈ rest
          · rw [← List.length_set data.clk_enabled j true] at hjlen
            exact hmem j hjr hjlen
          · have : d3.clk_enabled[j]? = (data.clk_enabled.set j true)[j]? :=
              hout j hjr
            simp only [List.getD_eq_getElem?_getD]
            rw [this, List.getElem?_set_self hjlen]
            rfl
        · rw [← List.length_set data.clk_enabled i true] at hjlen
          exact hmem j hj hjlen
      · have hji : j ≠ i := fun h => hj (h ▸ List.mem_cons_self i rest)
        have : d3.clk_enabled[j]? = (data.clk_enabled.set i true)[j]? :=
          hout j (fun h => hj (List.mem_cons_of_mem i h))
        rw [this, List.getElem?_set_ne (fun h => hji h.symm)]

/-- C1: with at least one declared clock, every handle resolving, a
matching frequency array, and every provider call succeeding, attach
returns 0 and produces a clock set with exactly `nClocks` items whose
frequency list is exactly the configured array (so item i's target
frequency is the configured value at index i) and whose enabled flags are
all true. -/
theorem probe_success_spec (env : Env)
    (halloc : env.allocOk = true) (harr : env.allocArraysOk = true)
    (hn0 : env.nClocks ≠ 0)
    (hres : ∀ i ∈ List.range env.nClocks, env.resolve i ≠ none)
    (freqs : List Nat) (hfreq : env.freqProp = some freqs)
    (hflen : freqs.length = env.nClocks)
    (hsr : ∀ c hz, 0 ≤ env.setRateRes c hz)
    (hpr : ∀ c, 0 ≤ env.prepareRes c) :
    (dummy_clk_probe env).1 = 0 ∧
    ∃ d, (dummy_clk_probe env).2.1 = some d ∧
      d.n_clocks = env.nClocks ∧
      d.clk_frequencies = freqs ∧
      d.clk_enabled.length = env.nClocks ∧
      ∀ i < env.nClocks, d.clk_enabled.getD i false = true := by
  obtain ⟨cs, hcs⟩ := resolveLoop_all_some env (List.range env.nClocks) hres
  rcases hrl : resolveLoop env (List.range env.nClocks) with ⟨o, tr⟩
  rw [hrl] at hcs
  simp only at hcs
  subst hcs
  have hread : of_property_read_u32_array env env.nClocks = some freqs := by
    simp [of_property_read_u32_array, hfreq, hflen]
  have hel := enableLoop_all_success env hsr hpr (List.range env.nClocks)
    { clocks := cs, clk_frequencies := freqs,
      clk_enabled := List.replicate env.nClocks false,
      n_clocks := env.nClocks }
  rcases helq : enableLoop env
      { clocks := cs, clk_frequencies := freqs,
        clk_enabled := List.replicate env.nClocks false,
        n_clocks := env.nClocks } (List.range env.nClocks) with ⟨r, d, tr2⟩
  rw [helq] at hel
  obtain ⟨hr, hclocks, hfr, hnc, hlen, hmem, hout⟩ := hel
  simp only at hr hclocks hfr hnc hlen hmem hout
  subst hr
  have hprobe : dummy_clk_probe env = (0, some d, tr ++ tr2) := by
    simp [dummy_clk_probe, halloc, harr, hn0, hrl, hread, helq]
  rw [hprobe]
  refine ⟨rfl, d, rfl, hnc, hfr, by simpa using hlen, fun i hi => ?_⟩
  exact hmem i (List.mem_range.mpr hi) (by simpa using hi)

/-- Witness for `probe_success_spec` at the concrete environment `envOk3`:
three clocks with frequencies [1000000, 2000000, 1500000], everything
succeeding. -/
theorem probe_success_spec_witness :
    (dummy_clk_probe envOk3).1 = 0 ∧
    ∃ d, (dummy_clk_probe envOk3).2.1 = some d ∧
      d.n_clocks = 3 ∧
      d.clk_frequencies = [1000000, 2000000, 1500000] ∧
      d.clk_enabled.length = 3 ∧
      ∀ i < 3, d.clk_enabled.getD i false = true :=
  probe_success_spec envOk3 rfl rfl (by decide) (by decide)
    [1000000, 2000000, 1500000] rfl rfl
    (fun _ _ => le_refl 0) (fun _ => le_refl 0)

/-- Helper: the disable loop preserves the handles, frequencies, clock
count and flag-array length, clears the flag of every index it processes,
leaves every other flag untouched, and issues exactly one
disable+unprepare call per initially-enabled processed index, in list
order. -/
theorem disableLoop_spec (env : Env) (L : List Nat) :
    ∀ data : DummyClkData, L.Nodup →
      (disableLoop env data L).1.clocks = data.clocks ∧
      (disableLoop env data L).1.clk_frequencies = data.clk_frequencies ∧
      (disableLoop env data L).1.n_clocks = data.n_clocks ∧
      (disableLoop env data L).1.clk_enabled.length =
        data.clk_enabled.length ∧
      (∀ j ∈ L,
        (disableLoop env data L).1.clk_enabled.getD j false = false) ∧
      (∀ j, j ∉ L →
        (disableLoop env data L).1.clk_enabled[j]? =
          data.clk_enabled[j]?) ∧
      (disableLoop env data L).2 =
        (L.filter (fun j => data.clk_enabled.getD j false)).map
          (fun j => .disableUnprepare (data.clocks.getD j ⟨0⟩)) := by
  induction L with
  | nil =>
    intro data _
    simp [disableLoop]
  | cons i rest ih =>
    intro data hnd
    obtain ⟨hni, hndr⟩ := List.nodup_cons.mp hnd
    by_cases hen : data.clk_enabled.getD i false = true
    · have hd : dummy_clk_disable env data i =
          ({ data with clk_enabled := data.clk_enabled.set i false },
            [.disableUnprepare (data.clocks.getD i ⟨0⟩)]) := by
        simp only [List.getD_eq_getElem?_getD] at hen
        simp [dummy_clk_disable, hen]
      have hrest := ih
        { data with clk_enabled := data.clk_enabled.set i false } hndr
      rcases hdl : disableLoop env
          { data with clk_enabled := data.clk_enabled.set i false } rest with
        ⟨d3, t2⟩
      rw [hdl] at hrest
      obtain ⟨hclocks, hfr, hnc, hlen, hmem, hout, htr⟩ := hrest
      simp only at hclocks hfr hnc hlen hmem hout htr
      have hstep : disableLoop env data (i :: rest) =
          (d3, [.disableUnprepare (data.clocks.getD i ⟨0⟩)] ++ t2) := by
        simp [disableLoop, hd, hdl]
      rw [hstep]
      rw [List.length_set] at hlen
      have hfc : rest.filter
            (fun j => (data.clk_enabled.set i false).getD j false) =
          rest.filter (fun j => data.clk_enabled.getD j false) := by
        apply List.filter_congr
        intro j hj
        have hji : i ≠ j := fun h => hni (h ▸ hj)
        simp [List.getD_eq_getElem?_getD, List.getElem?_set_ne hji]
      refine ⟨hclocks, hfr, hnc, hlen, fun j hj => ?_, fun j hj => ?_, ?_⟩
      · rcases List.mem_cons.mp hj with hj | hj
        · subst hj
          have hh : d3.clk_enabled[j]? =
              (data.clk_enabled.set j false)[j]? := hout j hni
          simp only [List.getD_eq_getElem?_getD]
          rw [hh]
          by_cases hjl : j < data.clk_enabled.length
          · rw [List.getElem?_set_self hjl]
            rfl
          · rw [List.getElem?_eq_none
              (by simpa using not_lt.mp hjl)]
            rfl
        · exact hmem j hj
      · have hji : i ≠ j := fun h => hj (h ▸ List.mem_cons_self i rest)
        have hh : d3.clk_enabled[j]? =
            (data.clk_enabled.set i false)[j]? :=
          hout j (fun h => hj (List.mem_cons_of_mem i h))
        rw [hh, List.getElem?_set_ne hji]
      · have henN := hen
        simp only [List.getD_eq_getElem?_getD] at henN
        rw [htr, hfc]
        simp [List.filter_cons, henN]
    · simp only [Bool.not_eq_true] at hen
      have hd : dummy_clk_disable env data i = (data, []) := by
        simp only [List.getD_eq_getElem?_getD] at hen
        simp [dummy_clk_disable, hen]
      have hrest := ih data hndr
      rcases hdl : disableLoop env data rest with ⟨d3, t2⟩
      rw [hdl] at hrest
      obtain ⟨hclocks, hfr, hnc, hlen, hmem, hout, htr⟩ := hrest
      simp only at hclocks hfr hnc hlen hmem hout htr
      have hstep : disableLoop env data (i :: rest) = (d3, [] ++ t2) := by
        simp [disableLoop, hd, hdl]
      rw [hstep]
      refine ⟨hclocks, hfr, hnc, hlen, fun j hj => ?_, fun j hj => ?_, ?_⟩
      · rcases List.mem_cons.mp hj with hj | hj
        · subst hj
          by_cases hjr : j ∈ rest
          · exact hmem j hjr
          · have hh : d3.clk_enabled[j]? = data.clk_enabled[j]? := hout j hjr
            simp only [List.getD_eq_getElem?_getD] at hen ⊢
            rw [hh]
            exact hen
        · exact hmem j hj
      · exact hout j (fun h => hj (List.mem_cons_of_mem i h))
      · have henN := hen
        simp only [List.getD_eq_getElem?_getD] at henN
        rw [htr]
        simp [List.filter_cons, henN]

/-- C2: detach iterates over all items in ascending index order and calls
the disable operation on each; it returns 0 (never an error), afterwards
every enabled flag is false, handles and frequencies are untouched, and
the provider received exactly one disable+unprepare call for each
initially-enabled item, in ascending index order. -/
theorem remove_spec (env : Env) (data : DummyClkData)
    (hlen : data.clk_enabled.length = data.n_clocks) :
    (dummy_clk_remove env data).1 = 0 ∧
    (dummy_clk_remove env data).2.1.clocks = data.clocks ∧
    (dummy_clk_remove env data).2.1.clk_frequencies =
      data.clk_frequencies ∧
    (dummy_clk_remove env data).2.1.n_clocks = data.n_clocks ∧
    (dummy_clk_remove env data).2.1.clk_enabled =
      List.replicate data.n_clocks false ∧
    (dummy_clk_remove env data).2.2 =
      ((List.range data.n_clocks).filter
        (fun j => data.clk_enabled.getD j false)).map
        (fun j => .disableUnprepare (data.clocks.getD j ⟨0⟩)) := by
  have hdl := disableLoop_spec env (List.range data.n_clocks) data
    (List.nodup_range data.n_clocks)
  rcases hq : disableLoop env data (List.range data.n_clocks) with ⟨d3, t2⟩
  rw [hq] at hdl
  obtain ⟨hclocks, hfr, hnc, hlen3, hmem, hout, htr⟩ := hdl
  simp only at hclocks hfr hnc hlen3 hmem hout htr
  have hrm : dummy_clk_remove env data = (0, d3, t2) := by
    simp [dummy_clk_remove, hq]
  rw [hrm]
  refine ⟨rfl, hclocks, hfr, hnc, ?_, htr⟩
  apply List.ext_getElem?
  intro j
  by_cases hj : j < data.n_clocks
  · have hjlen : j < d3.clk_enabled.length := by
      rw [hlen3, hlen]
      exact hj
    have hgd := hmem j (List.mem_range.mpr hj)
    simp only [List.getD_eq_getElem?_getD,
      List.getElem?_eq_getElem hjlen] at hgd
    simp only [List.getElem?_eq_getElem hjlen, Option.getD_some] at hgd ⊢
    rw [hgd, List.getElem?_replicate, if_pos hj]
  · rw [List.getElem?_eq_none, List.getElem?_eq_none]
    · simpa using not_lt.mp hj
    · rw [hlen3, hlen]
      exact not_lt.mp hj

/-- Witness for `remove_spec` at the concrete mixed-state set `dataMixed`
(items 0 and 2 enabled, item 1 disabled): detach returns 0, clears all
flags, and issues exactly the disable calls for items 0 and 2 in order. -/
theorem remove_spec_witness :
    (dummy_clk_remove envOk3 dataMixed).1 = 0 ∧
    (dummy_clk_remove envOk3 dataMixed).2.1.clocks = dataMixed.clocks ∧
    (dummy_clk_remove envOk3 dataMixed).2.1.clk_frequencies =
      dataMixed.clk_frequencies ∧
    (dummy_clk_remove envOk3 dataMixed).2.1.n_clocks = 3 ∧
    (dummy_clk_remove envOk3 dataMixed).2.1.clk_enabled =
      List.replicate 3 false ∧
    (dummy_clk_remove envOk3 dataMixed).2.2 =
      ((List.range 3).filter
        (fun j => dataMixed.clk_enabled.getD j false)).map
        (fun j => .disableUnprepare (dataMixed.clocks.getD j ⟨0⟩)) :=
  remove_spec envOk3 dataMixed rfl

end DummyClk
